import Mathlib

/-
Verification of the key-vault storage-account sample repository.

The development shallowly embeds the glue code of the four Python modules
(util.py, storage_account_sample.py, sas_definition_sample.py, run_sample.py):
pure call sites become Lean functions, the mutable configuration and the
vault state become explicit state passing, and exception-raising code
returns Except values.  External SDK and service behaviour that the sample
delegates to is modelled from the specification where a claim needs it;
every such definition carries a comment saying so.
-/

/-- Python-level runtime errors relevant to the embedded sample code. -/
inductive PyErr where
  | attributeError (name : String)
  | nameError (name : String)
  | typeError (kwarg : String)
  | sdkError (msg : String)
deriving DecidableEq, Repr

/-! ## Shared-access-signature templates (sas_definition_sample.py and
storage_account_sample.py, SAS creation methods) -/

/-- An account-level SAS token as produced by the storage SDK helper
SharedAccessSignature.generate_account: the query parameters together with
the signature.  Modelled from the spec: the cryptographic signature itself
is out of scope, so it is modelled freely as the pair of the signing key
and the string-to-sign, which keeps exactly the property the orchestration
relies on, namely that tokens signed with different keys differ. -/
structure AccountSasToken where
  services : String
  resource_types : String
  permission : String
  expiry : String
  sig_key : String
  sig_msg : String
deriving DecidableEq, Repr

/-- Embedding of SharedAccessSignature(account_name, account_key).generate_account
with the arguments the sample passes. -/
def generate_account (account_name account_key services resource_types
    permission expiry : String) : AccountSasToken :=
  { services := services
    resource_types := resource_types
    permission := permission
    expiry := expiry
    sig_key := account_key
    sig_msg := account_name ++ "\n" ++ services ++ "\n" ++ resource_types
      ++ "\n" ++ permission ++ "\n" ++ expiry }

/-- A container-level (service) SAS token as produced by
BlockBlobService.generate_container_shared_access_signature.  The signature
is modelled freely, as for account tokens. -/
structure ContainerSasToken where
  container_name : String
  permission : String
  expiry : String
  sig_key : String
  sig_msg : String
deriving DecidableEq, Repr

/-- Embedding of BlockBlobService(account_name, account_key)
.generate_container_shared_access_signature(container_name, permission, expiry). -/
def generate_container_shared_access_signature (account_name account_key
    container_name permission expiry : String) : ContainerSasToken :=
  { container_name := container_name
    permission := permission
    expiry := expiry
    sig_key := account_key
    sig_msg := account_name ++ "/" ++ container_name ++ "\n" ++ permission
      ++ "\n" ++ expiry }

/-- The account SAS template built by
SasDefinitionSample.create_account_sas_definition
(src/sas_definition_sample.py lines 49-56): SharedAccessSignature is
constructed with account_key given as the literal string of eight zeros,
then generate_account is called with services bfqt, resource types sco,
permissions acdlpruw and expiry 2020-01-01. -/
def sasdefsample_account_sas_template (storage_account_name : String) :
    AccountSasToken :=
  generate_account storage_account_name "00000000" "bfqt" "sco" "acdlpruw"
    "2020-01-01"

/-- The container SAS template token built by
SasDefinitionSample.create_blob_sas_defintion
(src/sas_definition_sample.py lines 106-112): BlockBlobService is
constructed with account_key given as the literal string of eight zeros. -/
def sasdefsample_blob_sas_template (storage_account_name : String) :
    ContainerSasToken :=
  generate_container_shared_access_signature storage_account_name "00000000"
    "blobcontainer" "rwdl" "2020-01-01"

/-- The account SAS template built by
StorageAccountSample.create_account_sas_definition
(src/storage_account_sample.py lines 210-216); the SharedAccessSignature is
again constructed with the eight-zero placeholder account_key. -/
def storagesample_account_sas_template (storage_account_name : String) :
    AccountSasToken :=
  generate_account storage_account_name "00000000" "bfqt" "sco" "acdlpruw"
    "2020-01-01"

/-- The container SAS template token built by
StorageAccountSample.create_blob_sas_defintion
(src/storage_account_sample.py lines 265-271), once more with the
eight-zero placeholder account_key. -/
def storagesample_blob_sas_template (storage_account_name : String) :
    ContainerSasToken :=
  generate_container_shared_access_signature storage_account_name "00000000"
    "blobcontainer" "rwdl" "2020-01-01"

/-! ## The vault side of SAS definitions (claim C4) -/

/-- State of the SAS definitions of one storage account inside the vault:
each definition name is associated with the registered template. -/
structure VaultSasStore where
  defs : List (String × AccountSasToken)
deriving DecidableEq, Repr

/-- Result bundle of set_sas_definition: the vault also creates the managed
secret and reports its identifier. -/
structure SasDefinitionBundle where
  sas_definition_name : String
  secret_name : String
deriving DecidableEq, Repr

/-- Embedding of keyvault_client.set_sas_definition: registers the template
under the definition name and returns the bundle carrying the derived
secret identifier (the managed secret shares the definition name). -/
def set_sas_definition (store : VaultSasStore) (name : String)
    (template : AccountSasToken) : VaultSasStore × SasDefinitionBundle :=
  (⟨(name, template) :: store.defs⟩,
   { sas_definition_name := name, secret_name := name })

/-- Modelled from the spec: the vault is the only party that signs with the
real account key, and it does so lazily on each secret read, re-signing the
registered template shape with the real key. -/
def vault_issue_account_token (real_key : String) (t : AccountSasToken) :
    AccountSasToken :=
  { t with sig_key := real_key }

/-- Modelled from the spec: keyvault_client.get_secret on the managed
secret of a SAS definition returns a freshly issued token, namely the
stored template re-signed with the real storage account key. -/
def vault_get_secret (store : VaultSasStore) (real_key secret_name : String) :
    Option AccountSasToken :=
  (store.defs.find? (fun d => d.1 == secret_name)).map
    (fun d => vault_issue_account_token real_key d.2)

/-- Embedding of the round trip of
SasDefinitionSample.create_account_sas_definition
(src/sas_definition_sample.py lines 49-77): build the template, register it
as the definition named acctall in an empty store, resolve the secret id of
the returned bundle, and read the secret.  Returns the template and the
token the secret read yields. -/
def create_account_sas_definition_roundtrip (storage_account_name
    real_key : String) : AccountSasToken × Option AccountSasToken :=
  let template := sasdefsample_account_sas_template storage_account_name
  let step := set_sas_definition ⟨[]⟩ "acctall" template
  (template, vault_get_secret step.1 real_key step.2.secret_name)

/-! ## Vault management model (util.py) -/

/-- Modelled from the spec: the management SDK enum of key permissions.
The sample computes its permission list as the comprehension over every
member of the enum, so only completeness of the list matters. -/
inductive KeyPermission where
  | encrypt | decrypt | wrapKey | unwrapKey | sign | verify | get | list
  | create | update | importKey | delete | backup | restore | recover | purge
deriving DecidableEq, Repr

/-- Modelled from the spec: the management SDK enum of secret permissions. -/
inductive SecretPermission where
  | get | list | set | delete | backup | restore | recover | purge
deriving DecidableEq, Repr

/-- Modelled from the spec: the management SDK enum of certificate
permissions. -/
inductive CertificatePermission where
  | get | list | delete | create | importCert | update | managecontacts
  | getissuers | listissuers | setissuers | deleteissuers | manageissuers
  | recover | purge
deriving DecidableEq, Repr

/-- Modelled from the spec: the management SDK enum of storage permissions. -/
inductive StoragePermission where
  | get | list | delete | set | update | regeneratekey | getsas | listsas
  | deletesas | setsas | recover | purge
deriving DecidableEq, Repr

/-- Embedding of KEY_PERMISSIONS_ALL (src/util.py line 22): the list of all
members of the key-permission enum. -/
def KEY_PERMISSIONS_ALL : List KeyPermission :=
  [.encrypt, .decrypt, .wrapKey, .unwrapKey, .sign, .verify, .get, .list,
   .create, .update, .importKey, .delete, .backup, .restore, .recover, .purge]

/-- Embedding of SECRET_PERMISSIONS_ALL (src/util.py line 21). -/
def SECRET_PERMISSIONS_ALL : List SecretPermission :=
  [.get, .list, .set, .delete, .backup, .restore, .recover, .purge]

/-- Embedding of CERTIFICATE_PERMISSIONS_ALL (src/util.py line 23). -/
def CERTIFICATE_PERMISSIONS_ALL : List CertificatePermission :=
  [.get, .list, .delete, .create, .importCert, .update, .managecontacts,
   .getissuers, .listissuers, .setissuers, .deleteissuers, .manageissuers,
   .recover, .purge]

/-- Embedding of STORAGE_PERMISSIONS_ALL (src/util.py line 24). -/
def STORAGE_PERMISSIONS_ALL : List StoragePermission :=
  [.get, .list, .delete, .set, .update, .regeneratekey, .getsas, .listsas,
   .deletesas, .setsas, .recover, .purge]

/-- A vault permission set over keys, secrets, certificates and storage. -/
structure Permissions where
  keys : List KeyPermission
  secrets : List SecretPermission
  certificates : List CertificatePermission
  storage : List StoragePermission
deriving DecidableEq, Repr

/-- An access-policy entry of a vault. -/
structure AccessPolicyEntry where
  tenant_id : String
  object_id : String
  permissions : Permissions
deriving DecidableEq, Repr

/-- The vault properties the sample manipulates. -/
structure VaultProperties where
  tenant_id : String
  access_policies : List AccessPolicyEntry
  vault_uri : String
deriving DecidableEq, Repr

/-- A managed vault as returned by the management client. -/
structure Vault where
  name : String
  properties : VaultProperties
deriving DecidableEq, Repr

/-- The full permission set the sample grants
(src/util.py lines 160-163 and 192-195). -/
def full_permissions : Permissions :=
  { keys := KEY_PERMISSIONS_ALL
    secrets := SECRET_PERMISSIONS_ALL
    certificates := CERTIFICATE_PERMISSIONS_ALL
    storage := STORAGE_PERMISSIONS_ALL }

/-- The mutable fields of SampleConfig (src/util.py lines 90-103) that the
embedded operations read or write. -/
structure SampleConfig where
  tenant_id : String
  client_oid : String
  location : String
  group_name : String
  storage_account_name : String
  vault_name : Option String
  vault : Option Vault
deriving DecidableEq, Repr

/-- A management-API call issued by the embedded vault operations. -/
inductive MgmtCall where
  | vaultGet (group_name vault_name : String)
  | vaultCreateOrUpdate (group_name vault_name : String)
deriving DecidableEq, Repr

/-- The vault creation parameters built by get_sample_vault
(src/util.py lines 192-209): an initial access policy granting the
configured service principal the full permission set. -/
def sample_vault_create_parameters (cfg : SampleConfig) :
    List AccessPolicyEntry :=
  [{ tenant_id := cfg.tenant_id
     object_id := cfg.client_oid
     permissions := full_permissions }]

/-- Responses of the external management API, as deterministic oracles. -/
structure MgmtEnv where
  getVault : String → String → Vault
  createVault : String → String → List AccessPolicyEntry → Vault

/-- Embedding of KeyVaultSampleBase.get_sample_vault
(src/util.py lines 174-217).  The fresh_name argument stands for the random
name produced by get_name.  Returns the vault, the updated configuration
and the list of management-API calls issued. -/
def get_sample_vault (env : MgmtEnv) (fresh_name : String)
    (cfg : SampleConfig) : Vault × SampleConfig × List MgmtCall :=
  match cfg.vault with
  | some v => (v, cfg, [])
  | none =>
    match cfg.vault_name with
    | some vn =>
      let v := env.getVault cfg.group_name vn
      (v, { cfg with vault := some v }, [.vaultGet cfg.group_name vn])
    | none =>
      let v := env.createVault cfg.group_name fresh_name
        (sample_vault_create_parameters cfg)
      (v, { cfg with vault := some v },
       [.vaultCreateOrUpdate cfg.group_name fresh_name])

/-- Embedding of KeyVaultSampleBase.grant_access_to_sample_vault
(src/util.py lines 154-172).  The method appends the full-permission policy
for the oid to the access-policy list of the in-memory vault object and
only then issues the create-or-update persistence call, whose outcome is
the persist_ok parameter.  The first component is the in-memory vault after
the call (the append mutates the object in place, so it stays appended
whatever the persistence call does); the second is the outcome of the
persistence call. -/
def grant_access_to_sample_vault (cfg : SampleConfig) (vault : Vault)
    (oid : String) (persist_ok : Bool) : Vault × Except PyErr Vault :=
  let policy : AccessPolicyEntry :=
    { tenant_id := cfg.tenant_id, object_id := oid,
      permissions := full_permissions }
  let vault2 : Vault :=
    { vault with properties :=
        { vault.properties with access_policies :=
            vault.properties.access_policies ++ [policy] } }
  (vault2,
   if persist_ok then .ok vault2
   else .error (.sdkError "vaults.create_or_update failed"))

/-! ## The keyvaultsample decorator (util.py lines 42-60, claim C9) -/

/-- Observable actions of the decorator wrapper. -/
inductive WrapEvent where
  | banner (name : String)
  | setupCall
  | bodyCall
  | errorTrace (e : PyErr)
deriving DecidableEq, Repr

/-- Embedding of the keyvaultsample decorator wrapper
(src/util.py lines 46-56): print the banner, run setup_sample, run the
wrapped body; on any exception print the error banner with the full trace
and re-raise the very same exception.  The wrapper body has no loop and no
handler beyond the print-and-re-raise, and it returns no value even on
success (the result of f is discarded).  Returns the trace of events and
the outcome. -/
def keyvaultsample (name : String) (setup : Except PyErr Unit)
    (body : Except PyErr Unit) : List WrapEvent × Except PyErr Unit :=
  match setup with
  | .error e => ([.banner name, .setupCall, .errorTrace e], .error e)
  | .ok _ =>
    match body with
    | .error e =>
      ([.banner name, .setupCall, .bodyCall, .errorTrace e], .error e)
    | .ok _ => ([.banner name, .setupCall, .bodyCall], .ok ())

/-! ## The device-code authenticator
(StorageAccountSample.get_user_token, storage_account_sample.py
lines 166-196, claim C3) -/

/-- The token dictionary returned by the identity library. -/
structure UserToken where
  accessToken : String
  tokenType : String
  userId : String
  objectId : String
deriving DecidableEq, Repr

/-- The cached user identity fields of StorageAccountSample
(self.user underscore fields set in init and in get_user_token). -/
structure AuthState where
  user_id : Option String
  user_oid : Option String
deriving DecidableEq, Repr

/-- Responses of the external identity service, as deterministic oracles:
silent acquisition from the cache for a resource and cached user, the
instructional message of acquire_user_code, and the token the completed
device-code flow returns. -/
structure AuthEnv where
  acquire_token : String → String → Option UserToken
  acquire_user_code_message : String → String
  acquire_token_with_device_code : String → UserToken

/-- Observable actions of get_user_token. -/
inductive AuthEvent where
  | silentAttempt (resource user_id : String)
  | printedMessage (msg : String)
  | deviceChallenge (resource : String)
deriving DecidableEq, Repr

/-- The acquisition logic of StorageAccountSample.get_user_token
(src/storage_account_sample.py lines 174-196), as it would run on an
object whose auth_context attribute resolves to a working authentication
context: when a user id is cached, first try silent acquisition; whenever
no token resulted (no cached user, or silent acquisition returned
nothing), run acquire_user_code, print its message, complete the
device-code flow and cache the user id and object id of the resulting
token.  Returns the token, the new cached identity and the trace of
events.  The full method, including the self.auth_context attribute
access that guards every branch of this logic, is get_user_token_run
below. -/
def get_user_token (env : AuthEnv) (st : AuthState) (resource : String) :
    UserToken × AuthState × List AuthEvent :=
  match st.user_id with
  | some uid =>
    match env.acquire_token resource uid with
    | some tok => (tok, st, [.silentAttempt resource uid])
    | none =>
      let msg := env.acquire_user_code_message resource
      let tok := env.acquire_token_with_device_code resource
      (tok, { user_id := some tok.userId, user_oid := some tok.objectId },
       [.silentAttempt resource uid, .printedMessage msg,
        .deviceChallenge resource])
  | none =>
    let msg := env.acquire_user_code_message resource
    let tok := env.acquire_token_with_device_code resource
    (tok, { user_id := some tok.userId, user_oid := some tok.objectId },
     [.printedMessage msg, .deviceChallenge resource])

/-- Attribute names the StorageAccountSample class and its base class
KeyVaultSampleBase provide to instance attribute lookup: the methods of
the derived class (src/storage_account_sample.py class body) and the
methods and properties of the base class (src/util.py lines 106-217).
Neither class defines an auth_context attribute or property: the base
class stores the authentication context on the configuration object
(self.config.auth_context, src/util.py line 141). -/
def storage_sample_class_attrs : List String :=
  ["add_storage_account", "update_storage_account",
   "rotate_storage_account_keys", "get_storage_accounts",
   "delete_storage_account", "get_user_token",
   "create_account_sas_definition", "create_blob_sas_defintion",
   "setup_sample", "grant_access_to_sample_vault", "get_sample_vault",
   "create_client_creds", "mgmt_client_creds", "sample_vault_url"]

/-- Python attribute lookup on a sample object: the name must be an
instance attribute or be provided by the class (a method or property of
the class or of its base class); any other access raises AttributeError. -/
def getattr_sample (inst cls : List String) (name : String) :
    Except PyErr Unit :=
  if inst.contains name || cls.contains name then .ok ()
  else .error (.attributeError name)

/-- Embedding of the full method StorageAccountSample.get_user_token
(src/storage_account_sample.py lines 166-196) at the attribute-access
level: whichever branch the cached-user test takes, the next statement
reads self.auth_context (line 179 when a user id is cached, line 185
otherwise), so the acquisition logic runs only when that attribute
resolves on the object. -/
def get_user_token_run (inst cls : List String) (env : AuthEnv)
    (st : AuthState) (resource : String) :
    Except PyErr (UserToken × AuthState × List AuthEvent) :=
  match getattr_sample inst cls "auth_context" with
  | .error e => .error e
  | .ok _ => .ok (get_user_token env st resource)

/-! ## StorageAccountSample instance state (claim C5) -/

/-- The attributes StorageAccountSample.init sets on the instance
(src/storage_account_sample.py lines 26-39): only the two cached identity
fields.  The init method never invokes the base-class initializer, so
config is never set, and the user-authenticated vault client it builds is
bound only to the local variable keyvault_user_client. -/
def storage_sample_instance_attrs : List String := ["_user_id", "_user_oid"]

/-- Embedding of KeyVaultSampleBase.setup_sample (src/util.py lines
131-152) at the attribute-access level: in a fresh process the class-level
flag is false, so the method reads self.config, which raises
AttributeError when the instance has no config attribute; the management
calls that follow are irrelevant to the claims here and collapse to
success. -/
def setup_sample_attrs (setup_complete : Bool) (attrs : List String) :
    Except PyErr Unit :=
  if setup_complete then .ok ()
  else if attrs.contains "config" then .ok ()
  else .error (.attributeError "config")

/-- Names bound at module level in src/storage_account_sample.py
(the import on line 19 and the class statement). -/
def storage_sample_module_globals : List String :=
  ["uuid", "KeyVaultSampleBase", "keyvaultsample", "run_all_samples",
   "get_name", "StorageAccountSample"]

/-- Local names bound in the body of add_storage_account by the time the
statement referencing keyvault_user_client runs
(src/storage_account_sample.py lines 42-100): the function-local imports
and the assigned variables. -/
def add_storage_account_locals : List String :=
  ["self", "StorageManagementClient", "StorageAccountCreateParameters",
   "Sku", "SkuName", "Kind", "AADTokenCredentials",
   "RoleAssignmentCreateParameters", "StorageAccountAttributes",
   "AccessPolicyEntry", "Permissions", "StoragePermissions",
   "user_token_creds", "storage_mgmt_client", "sa_params", "sa",
   "filter_str", "role_id", "role_params", "attributes"]

/-- Python resolution of a bare name in a function body: function locals,
then module globals (the builtins hold none of the names of interest
here); an unbound name raises NameError. -/
def resolve_name (name : String) (locs mglobals : List String) :
    Except PyErr String :=
  if locs.contains name then .ok name
  else if mglobals.contains name then .ok name
  else .error (.nameError name)

/-- The methods of StorageAccountSample wrapped by the keyvaultsample
decorator (src/storage_account_sample.py). -/
def storage_sample_decorated_methods : List String :=
  ["add_storage_account", "update_storage_account",
   "rotate_storage_account_keys", "get_storage_accounts",
   "delete_storage_account", "create_account_sas_definition",
   "create_blob_sas_defintion"]

/-! ## Managed storage-account key rotation (claim C6) -/

/-- Keys of a vault-managed storage account: key names associated with
their current values; lookup of a key value by name. -/
def lookup_key : List (String × String) → String → Option String
  | [], _ => none
  | kv :: tl, name => if kv.1 = name then some kv.2 else lookup_key tl name

/-- Modelled from the spec: keyvault_client.regenerate_storage_account_key
of the vault data plane rotates the named key of the managed storage
account, replacing its value with a freshly generated one; the fresh
argument stands for the value the service generates. -/
def regenerate_storage_account_key (keys : List (String × String))
    (key_name fresh : String) : List (String × String) :=
  keys.map (fun kv => if kv.1 = key_name then (kv.1, fresh) else kv)

/-- Embedding of StorageAccountSample.rotate_storage_account_keys
(src/storage_account_sample.py lines 127-139): two regenerate calls, for
key1 and then key2. -/
def rotate_storage_account_keys (keys : List (String × String))
    (fresh1 fresh2 : String) : List (String × String) :=
  regenerate_storage_account_key
    (regenerate_storage_account_key keys "key1" fresh1) "key2" fresh2

/-! ## The sample runner (run_sample.py, claim C7) -/

/-- A step of the runner script: construct a sample object passing the
given keyword arguments, or call a method on a constructed object. -/
inductive RunStep where
  | construct (cls : String) (kwargs : List String)
  | call (obj meth : String)
deriving DecidableEq, Repr

/-- Method names defined on StorageAccountSample
(class body of src/storage_account_sample.py). -/
def storage_sample_method_names : List String :=
  ["add_storage_account", "update_storage_account",
   "rotate_storage_account_keys", "get_storage_accounts",
   "delete_storage_account", "get_user_token",
   "create_account_sas_definition", "create_blob_sas_defintion"]

/-- Method names defined on SasDefinitionSample
(class body of src/sas_definition_sample.py). -/
def sas_sample_method_names : List String :=
  ["run_all_samples", "create_account_sas_definition",
   "create_blob_sas_defintion", "get_sas_definitions"]

/-- Keyword parameters accepted by the init method of each sample class:
StorageAccountSample.init takes only self
(src/storage_account_sample.py line 26), while SasDefinitionSample.init
also takes config (src/sas_definition_sample.py line 22). -/
def init_kwarg_params : String → List String
  | "SasDefinitionSample" => ["config"]
  | _ => []

/-- The methods available on the two objects the runner builds. -/
def methods_of : String → List String
  | "sa_sample" => storage_sample_method_names
  | _ => sas_sample_method_names

/-- The steps of run_all_samples in src/run_sample.py lines 7-20, in
program order: the two constructions, then the demo-step calls. -/
def run_all_samples_steps : List RunStep :=
  [.construct "StorageAccountSample" ["config"],
   .construct "SasDefinitionSample" ["config"],
   .call "sa_sample" "add_storage_account",
   .call "sa_sample" "update_storage_account",
   .call "sa_sample" "regenerate_storage_account_key",
   .call "sa_sample" "get_storage_accounts",
   .call "sas_sample" "create_account_sas_definition",
   .call "sas_sample" "create_blob_sas_defintion",
   .call "sas_sample" "get_sas_definitions",
   .call "sa_sample" "delete_storage_account"]

/-- Whether one runner step succeeds at the name-binding level: a
construction fails with TypeError when a passed keyword is not a
parameter of the init method, a call fails with AttributeError when the
object has no method of that name. -/
def exec_step : RunStep → Except PyErr Unit
  | .construct cls kwargs =>
    match kwargs.filter (fun k => !((init_kwarg_params cls).contains k)) with
    | [] => .ok ()
    | k :: _ => .error (.typeError k)
  | .call obj meth =>
    if (methods_of obj).contains meth then .ok ()
    else .error (.attributeError meth)

/-- Sequential execution of the runner steps: each step starts only after
the previous one returned, and the first raising step aborts the run.
Returns the steps that completed and the error that aborted the run, if
any. -/
def exec_runner : List RunStep → List RunStep × Option PyErr
  | [] => ([], none)
  | s :: rest =>
    match exec_step s with
    | .error e => ([], some e)
    | .ok _ =>
      match exec_runner rest with
      | (done, r) => (s :: done, r)

/-! ## Listing operations (claim C8) -/

/-- Modelled from the spec: the keyword parameters of the vault data-plane
client operations the two listing methods use.  get_storage_accounts and
get_sas_definitions are the list operations of the client;
get_storage_account and get_sas_definition are the single-item get
operations. -/
def kv_get_storage_accounts_params : List String :=
  ["vault_base_url", "maxresults"]

/-- Modelled from the spec: parameters of the single-item storage-account
get operation of the vault data-plane client. -/
def kv_get_storage_account_params : List String :=
  ["vault_base_url", "storage_account_name"]

/-- Modelled from the spec: parameters of the SAS-definition list
operation of the vault data-plane client. -/
def kv_get_sas_definitions_params : List String :=
  ["vault_base_url", "storage_account_name", "maxresults"]

/-- Modelled from the spec: parameters of the single-item SAS-definition
get operation of the vault data-plane client. -/
def kv_get_sas_definition_params : List String :=
  ["vault_base_url", "storage_account_name", "sas_definition_name"]

/-- Python keyword-argument binding: the call raises TypeError at the
first keyword that is not a parameter of the callee. -/
def bind_kwargs (params kwargs : List String) : Except PyErr Unit :=
  match kwargs.filter (fun k => !(params.contains k)) with
  | [] => .ok ()
  | k :: _ => .error (.typeError k)

/-- The keywords the per-item fetch inside
StorageAccountSample.get_storage_accounts passes
(src/storage_account_sample.py lines 153-154) to
keyvault_client.get_storage_accounts, the list operation. -/
def src_storage_accounts_item_fetch_kwargs : List String :=
  ["vault_base_url", "storage_account_name"]

/-- A parsed SAS-definition identifier (the StorageSasDefinitionId object
of the SDK). -/
structure StorageSasDefinitionId where
  vault : String
  account_name : String
  sas_definition : String
deriving DecidableEq, Repr

/-- A SAS-definition bundle as returned by the single-item get. -/
structure SasDefGetBundle where
  name : String
  template_uri : String
deriving DecidableEq, Repr

/-- Modelled from the spec: the SAS definitions the vault data plane holds
for one storage account of one vault. -/
structure SasDefServiceState where
  vault : String
  account : String
  defs : List (String × String)
deriving DecidableEq, Repr

/-- Modelled from the spec: the list operation returns at most maxresults
items, each carrying the identifier of a stored definition. -/
def kv_list_sas_definitions (st : SasDefServiceState) (maxresults : Nat) :
    List StorageSasDefinitionId :=
  (st.defs.take maxresults).map (fun d => ⟨st.vault, st.account, d.1⟩)

/-- Modelled from the spec: the single-item get operation fetches the
definition of the given name for the given account. -/
def kv_get_one_sas_definition (st : SasDefServiceState)
    (account name : String) : Option SasDefGetBundle :=
  if account = st.account then
    (st.defs.find? (fun d => d.1 == name)).map (fun d => ⟨d.1, d.2⟩)
  else none

/-- Embedding of the loop of SasDefinitionSample.get_sas_definitions
(src/sas_definition_sample.py lines 147-166): list the definitions with
maxresults 5, parse each returned identifier, and fetch each definition
individually with the parsed components.  Returns, per listed item, the
parsed identifier and the fetched bundle. -/
def src_get_sas_definitions (st : SasDefServiceState) :
    List (StorageSasDefinitionId × Option SasDefGetBundle) :=
  (kv_list_sas_definitions st 5).map
    (fun i => (i, kv_get_one_sas_definition st i.account_name i.sas_definition))

/-! ## Concrete fixtures for the witness theorems -/

/-- A concrete vault for witnesses. -/
def test_vault : Vault :=
  { name := "vault-x"
    properties := { tenant_id := "tenant", access_policies := [],
                    vault_uri := "https://vault-x" } }

/-- A concrete deterministic management environment for witnesses. -/
def test_mgmt_env : MgmtEnv :=
  { getVault := fun _ vn =>
      { name := vn
        properties := { tenant_id := "tenant", access_policies := [],
                        vault_uri := "uri" } }
    createVault := fun _ vn ps =>
      { name := vn
        properties := { tenant_id := "tenant", access_policies := ps,
                        vault_uri := "uri" } } }

/-- A concrete configuration with an empty vault cache for witnesses. -/
def test_config : SampleConfig :=
  { tenant_id := "tenant", client_oid := "oid", location := "westus"
    group_name := "group", storage_account_name := "sa1"
    vault_name := none, vault := none }

/-- A concrete user token for witnesses. -/
def test_token : UserToken :=
  { accessToken := "tok", tokenType := "Bearer"
    userId := "user@example.com", objectId := "uoid" }

/-- A concrete identity environment whose cache never yields a token. -/
def test_auth_env : AuthEnv :=
  { acquire_token := fun _ _ => none
    acquire_user_code_message := fun _ => "msg"
    acquire_token_with_device_code := fun _ => test_token }

/-- The never-authenticated identity state. -/
def test_auth_state : AuthState := { user_id := none, user_oid := none }

/-- A concrete SAS-definition service state for witnesses. -/
def test_sas_store : SasDefServiceState :=
  { vault := "v", account := "acct", defs := [("blobcontall", "uri")] }

/-! ## Theorems -/

/-- C1: in every SAS-definition creation operation, in both sample
classes, the key used locally to sign the template SAS token is the fixed
placeholder value of eight zeros, and the real storage account key is
never the key passed to the local template-signing call. -/
theorem sas_templates_signed_with_placeholder_key
    (san1 san2 san3 san4 real_key : String) (h : real_key ≠ "00000000") :
    (sasdefsample_account_sas_template san1).sig_key = "00000000" ∧
    (sasdefsample_blob_sas_template san2).sig_key = "00000000" ∧
    (storagesample_account_sas_template san3).sig_key = "00000000" ∧
    (storagesample_blob_sas_template san4).sig_key = "00000000" ∧
    (sasdefsample_account_sas_template san1).sig_key ≠ real_key ∧
    (sasdefsample_blob_sas_template san2).sig_key ≠ real_key ∧
    (storagesample_account_sas_template san3).sig_key ≠ real_key ∧
    (storagesample_blob_sas_template san4).sig_key ≠ real_key :=
  ⟨rfl, rfl, rfl, rfl,
   fun hk => h (hk.symm.trans rfl), fun hk => h (hk.symm.trans rfl),
   fun hk => h (hk.symm.trans rfl), fun hk => h (hk.symm.trans rfl)⟩

/-- Witness for C1 at a concrete account name and real key. -/
theorem sas_templates_signed_with_placeholder_key_witness :
    ("realkey" ≠ "00000000") ∧
    ((sasdefsample_account_sas_template "sa1").sig_key = "00000000" ∧
     (sasdefsample_blob_sas_template "sa1").sig_key = "00000000" ∧
     (storagesample_account_sas_template "sa1").sig_key = "00000000" ∧
     (storagesample_blob_sas_template "sa1").sig_key = "00000000" ∧
     (sasdefsample_account_sas_template "sa1").sig_key ≠ "realkey" ∧
     (sasdefsample_blob_sas_template "sa1").sig_key ≠ "realkey" ∧
     (storagesample_account_sas_template "sa1").sig_key ≠ "realkey" ∧
     (storagesample_blob_sas_template "sa1").sig_key ≠ "realkey") :=
  ⟨by decide,
   sas_templates_signed_with_placeholder_key "sa1" "sa1" "sa1" "sa1"
     "realkey" (by decide)⟩

/-- C4: registering the locally built template as a SAS definition and
then reading the associated secret yields a token value distinct from the
unsigned template, whenever the real account key differs from the
placeholder. -/
theorem create_account_sas_definition_token_ne_template
    (san real_key : String) (h : real_key ≠ "00000000") :
    (create_account_sas_definition_roundtrip san real_key).2 =
      some (vault_issue_account_token real_key
        (sasdefsample_account_sas_template san)) ∧
    ∀ tok, (create_account_sas_definition_roundtrip san real_key).2 =
        some tok →
      tok ≠ (create_account_sas_definition_roundtrip san real_key).1 := by
  have hfst : (create_account_sas_definition_roundtrip san real_key).2 =
      some (vault_issue_account_token real_key
        (sasdefsample_account_sas_template san)) := rfl
  refine ⟨hfst, ?_⟩
  intro tok htok heq
  have h3 : vault_issue_account_token real_key
      (sasdefsample_account_sas_template san) = tok :=
    Option.some.inj (hfst.symm.trans htok)
  exact h (congrArg AccountSasToken.sig_key (h3.trans heq))

/-- Witness for C4 at a concrete account name and real key. -/
theorem create_account_sas_definition_token_ne_template_witness :
    ("realkey" ≠ "00000000") ∧
    ((create_account_sas_definition_roundtrip "sa1" "realkey").2 =
       some (vault_issue_account_token "realkey"
         (sasdefsample_account_sas_template "sa1")) ∧
     ∀ tok, (create_account_sas_definition_roundtrip "sa1" "realkey").2 =
         some tok →
       tok ≠ (create_account_sas_definition_roundtrip "sa1" "realkey").1) :=
  ⟨by decide,
   create_account_sas_definition_token_ne_template "sa1" "realkey"
     (by decide)⟩

/-- C2: get_sample_vault is idempotent relative to the cached reference.
With a cached vault it returns the cached object, leaves the configuration
unchanged and issues no management-API call; starting from an empty cache,
the first call issues exactly one call and a second call in the same
process returns the identical cached vault with zero further calls. -/
theorem get_sample_vault_idempotent (env : MgmtEnv) (cfg : SampleConfig)
    (n1 n2 : String) :
    (∀ v, cfg.vault = some v → get_sample_vault env n1 cfg = (v, cfg, [])) ∧
    (cfg.vault = none →
      (get_sample_vault env n1 cfg).2.2.length = 1 ∧
      get_sample_vault env n2 (get_sample_vault env n1 cfg).2.1 =
        ((get_sample_vault env n1 cfg).1,
         (get_sample_vault env n1 cfg).2.1, [])) := by
  constructor
  · intro v hv
    simp [get_sample_vault, hv]
  · intro hv
    cases hvn : cfg.vault_name with
    | some vn => exact ⟨by simp [get_sample_vault, hv, hvn],
        by simp [get_sample_vault, hv, hvn]⟩
    | none => exact ⟨by simp [get_sample_vault, hv, hvn],
        by simp [get_sample_vault, hv, hvn]⟩

/-- Witness for C2: two calls on the empty-cache test configuration. -/
theorem get_sample_vault_idempotent_witness :
    test_config.vault = none ∧
    ((get_sample_vault test_mgmt_env "v1" test_config).2.2.length = 1 ∧
     get_sample_vault test_mgmt_env "v2"
         (get_sample_vault test_mgmt_env "v1" test_config).2.1 =
       ((get_sample_vault test_mgmt_env "v1" test_config).1,
        (get_sample_vault test_mgmt_env "v1" test_config).2.1, [])) :=
  ⟨rfl, (get_sample_vault_idempotent test_mgmt_env test_config "v1" "v2").2 rfl⟩

/-- The acquisition logic downstream of the auth_context access, on an
object where that attribute would resolve: with no cached user it runs
the device-code challenge, prints the instructional message, and caches
the resulting user identity; with a cached user it first attempts silent
acquisition and runs a fresh device-code challenge only when that yields
no token.  On a real StorageAccountSample object this logic is never
reached: see the claim C3 theorem below. -/
theorem get_user_token_cache_behavior (env : AuthEnv) (st : AuthState)
    (resource : String) :
    (st.user_id = none →
      (get_user_token env st resource).1 =
        env.acquire_token_with_device_code resource ∧
      (get_user_token env st resource).2.2 =
        [.printedMessage (env.acquire_user_code_message resource),
         .deviceChallenge resource] ∧
      (get_user_token env st resource).2.1.user_id =
        some (env.acquire_token_with_device_code resource).userId ∧
      (get_user_token env st resource).2.1.user_oid =
        some (env.acquire_token_with_device_code resource).objectId) ∧
    (∀ uid, st.user_id = some uid →
      (get_user_token env st resource).2.2.head? =
        some (.silentAttempt resource uid) ∧
      (∀ t, env.acquire_token resource uid = some t →
        (get_user_token env st resource).1 = t ∧
        (get_user_token env st resource).2.1 = st ∧
        AuthEvent.deviceChallenge resource ∉
          (get_user_token env st resource).2.2) ∧
      (env.acquire_token resource uid = none →
        AuthEvent.deviceChallenge resource ∈
          (get_user_token env st resource).2.2 ∧
        (get_user_token env st resource).1 =
          env.acquire_token_with_device_code resource ∧
        (get_user_token env st resource).2.1.user_id =
          some (env.acquire_token_with_device_code resource).userId ∧
        (get_user_token env st resource).2.1.user_oid =
          some (env.acquire_token_with_device_code resource).objectId)) := by
  constructor
  · intro h
    simp [get_user_token, h]
  · intro uid h
    refine ⟨?_, ?_, ?_⟩
    · cases ht : env.acquire_token resource uid <;>
        simp [get_user_token, h, ht]
    · intro t ht
      simp [get_user_token, h, ht]
    · intro ht
      simp [get_user_token, h, ht]

/-- Concrete instantiation of the downstream-logic lemma: a
never-authenticated state on a concrete environment. -/
theorem get_user_token_cache_behavior_witness :
    test_auth_state.user_id = none ∧
    ((get_user_token test_auth_env test_auth_state "res").1 =
       test_auth_env.acquire_token_with_device_code "res" ∧
     (get_user_token test_auth_env test_auth_state "res").2.2 =
       [.printedMessage (test_auth_env.acquire_user_code_message "res"),
        .deviceChallenge "res"] ∧
     (get_user_token test_auth_env test_auth_state "res").2.1.user_id =
       some (test_auth_env.acquire_token_with_device_code "res").userId ∧
     (get_user_token test_auth_env test_auth_state "res").2.1.user_oid =
       some (test_auth_env.acquire_token_with_device_code "res").objectId) :=
  ⟨rfl,
   (get_user_token_cache_behavior test_auth_env test_auth_state "res").1 rfl⟩

/-- C3, evaluation at the failing input: every call to get_user_token on
a StorageAccountSample object raises AttributeError at self.auth_context
before any silent attempt, instructional print, device-code challenge or
identity caching, whatever the cached state, the resource, and the
identity service responses: the object carries only the two identity
fields set by init, and neither the class nor its base provides an
auth_context attribute (the base class stores the context on the
configuration object).  So the challenge-print-cache behaviour the claim
describes, proved of the downstream logic above, never occurs on the
code as written. -/
theorem get_user_token_raises_attribute_error (env : AuthEnv)
    (st : AuthState) (resource : String) :
    get_user_token_run storage_sample_instance_attrs
        storage_sample_class_attrs env st resource =
      .error (.attributeError "auth_context") := rfl

/-- C5: in a fresh process, every decorated sample method of
StorageAccountSample raises before completing its cloud operations: the
init method sets no config attribute (it never invokes the base-class
initializer), so setup_sample raises AttributeError inside the wrapper for
every decorated method and any body; moreover the client built in init is
not an instance attribute, and the bare name keyvault_user_client that
add_storage_account references resolves to no local or module-level
binding, so that reference raises NameError. -/
theorem storage_sample_decorated_methods_raise :
    storage_sample_instance_attrs.contains "config" = false ∧
    storage_sample_instance_attrs.contains "keyvault_user_client" = false ∧
    (∀ m, m ∈ storage_sample_decorated_methods → ∀ body,
      (keyvaultsample m
        (setup_sample_attrs false storage_sample_instance_attrs) body).2 =
          .error (.attributeError "config")) ∧
    resolve_name "keyvault_user_client" add_storage_account_locals
        storage_sample_module_globals =
      .error (.nameError "keyvault_user_client") := by
  refine ⟨rfl, rfl, ?_, rfl⟩
  intro m hm body
  have hs : setup_sample_attrs false storage_sample_instance_attrs =
      .error (.attributeError "config") := rfl
  rw [hs]
  rfl

/-- Witness for C5: the wrapped add_storage_account raises in a fresh
process even with a body that would succeed. -/
theorem storage_sample_decorated_methods_raise_witness :
    ("add_storage_account" ∈ storage_sample_decorated_methods) ∧
    (keyvaultsample "add_storage_account"
      (setup_sample_attrs false storage_sample_instance_attrs)
      (.ok ())).2 = .error (.attributeError "config") :=
  ⟨by decide,
   storage_sample_decorated_methods_raise.2.2.1 "add_storage_account"
     (by decide) (.ok ())⟩

/-- C9: for every method wrapped by the keyvaultsample decorator and every
exception raised by setup or by the wrapped body, the wrapper prints the
banner first, records the full error trace, and re-raises the very same
exception; it calls setup exactly once and the body at most once (no
retry, no recovery), and produces no result. -/
theorem keyvaultsample_reraises_unchanged (name : String)
    (setup body : Except PyErr Unit) (e : PyErr)
    (h : setup = .error e ∨ (setup = .ok () ∧ body = .error e)) :
    (keyvaultsample name setup body).2 = .error e ∧
    (keyvaultsample name setup body).1.head? = some (.banner name) ∧
    WrapEvent.errorTrace e ∈ (keyvaultsample name setup body).1 ∧
    (keyvaultsample name setup body).1.count .setupCall = 1 ∧
    (keyvaultsample name setup body).1.count .bodyCall ≤ 1 := by
  rcases h with hs | ⟨hs, hb⟩
  · simp [keyvaultsample, hs, List.count_cons]
  · simp [keyvaultsample, hs, hb, List.count_cons]

/-- Witness for C9: a failing setup propagates unchanged. -/
theorem keyvaultsample_reraises_unchanged_witness :
    ((Except.error (PyErr.sdkError "boom") : Except PyErr Unit) =
        .error (.sdkError "boom") ∨
      ((Except.error (PyErr.sdkError "boom") : Except PyErr Unit) = .ok () ∧
       (Except.ok () : Except PyErr Unit) = .error (.sdkError "boom"))) ∧
    ((keyvaultsample "step" (.error (.sdkError "boom")) (.ok ())).2 =
        .error (.sdkError "boom") ∧
     (keyvaultsample "step" (.error (.sdkError "boom")) (.ok ())).1.head? =
        some (.banner "step") ∧
     WrapEvent.errorTrace (.sdkError "boom") ∈
       (keyvaultsample "step" (.error (.sdkError "boom")) (.ok ())).1 ∧
     (keyvaultsample "step" (.error (.sdkError "boom"))
        (.ok ())).1.count .setupCall = 1 ∧
     (keyvaultsample "step" (.error (.sdkError "boom"))
        (.ok ())).1.count .bodyCall ≤ 1) :=
  ⟨Or.inl rfl,
   keyvaultsample_reraises_unchanged "step" (.error (.sdkError "boom"))
     (.ok ()) (.sdkError "boom") (Or.inl rfl)⟩

/-- Regenerating a key leaves the value of every other key name unchanged. -/
theorem lookup_key_regenerate_other (keys : List (String × String))
    (kn fresh other : String) (h : other ≠ kn) :
    lookup_key (regenerate_storage_account_key keys kn fresh) other =
      lookup_key keys other := by
  induction keys with
  | nil => rfl
  | cons kv tl ih =>
    by_cases hk : kv.1 = kn
    · have hkn : ¬ kn = other := fun he => h he.symm
      simp [regenerate_storage_account_key, lookup_key, hk, hkn] at ih ⊢
      exact ih
    · by_cases ho : kv.1 = other
      · simp [regenerate_storage_account_key, lookup_key, hk, ho, h]
      · simp [regenerate_storage_account_key, lookup_key, hk, ho] at ih ⊢
        exact ih

/-- Regenerating a key that the account has sets exactly that key to the
fresh value. -/
theorem lookup_key_regenerate_same (keys : List (String × String))
    (kn fresh : String) (h : (lookup_key keys kn).isSome) :
    lookup_key (regenerate_storage_account_key keys kn fresh) kn =
      some fresh := by
  induction keys with
  | nil => simp [lookup_key] at h
  | cons kv tl ih =>
    by_cases hk : kv.1 = kn
    · simp [regenerate_storage_account_key, lookup_key, hk]
    · simp [regenerate_storage_account_key, lookup_key, hk] at h ih ⊢
      exact ih h

/-- C6: the key-regeneration operation, for a given key name, rotates
exactly that named key of the vault-managed storage account and no other
key. -/
theorem regenerate_rotates_exactly_named_key (keys : List (String × String))
    (kn fresh other : String) (hs : (lookup_key keys kn).isSome)
    (h : other ≠ kn) :
    lookup_key (regenerate_storage_account_key keys kn fresh) kn =
      some fresh ∧
    lookup_key (regenerate_storage_account_key keys kn fresh) other =
      lookup_key keys other :=
  ⟨lookup_key_regenerate_same keys kn fresh hs,
   lookup_key_regenerate_other keys kn fresh other h⟩

/-- Witness for C6 on a two-key account, rotating key1 as
rotate_storage_account_keys does first. -/
theorem regenerate_rotates_exactly_named_key_witness :
    ((lookup_key [("key1", "a"), ("key2", "b")] "key1").isSome ∧
      "key2" ≠ "key1") ∧
    (lookup_key (regenerate_storage_account_key
        [("key1", "a"), ("key2", "b")] "key1" "f") "key1" = some "f" ∧
     lookup_key (regenerate_storage_account_key
        [("key1", "a"), ("key2", "b")] "key1" "f") "key2" =
       lookup_key [("key1", "a"), ("key2", "b")] "key2") :=
  ⟨⟨by decide, by decide⟩,
   regenerate_rotates_exactly_named_key [("key1", "a"), ("key2", "b")]
     "key1" "f" "key2" (by decide) (by decide)⟩

/-- C7, evaluation at the failing input: executing run_all_samples of
run_sample.py aborts during the very first step, the construction
StorageAccountSample(config=config), with a TypeError, because the init
method of that class accepts no config keyword; zero demo steps execute.
Even granting the two constructions, execution aborts after
add_storage_account and update_storage_account because the object has no
method named regenerate_storage_account_key (the method is named
rotate_storage_account_keys), so the SAS steps and the final delete are
never started.  This contradicts the claim that every run executes the
demo steps through to the deletion. -/
theorem run_all_samples_aborts_before_steps :
    exec_runner run_all_samples_steps = ([], some (.typeError "config")) ∧
    exec_runner (run_all_samples_steps.drop 2) =
      ([.call "sa_sample" "add_storage_account",
        .call "sa_sample" "update_storage_account"],
       some (.attributeError "regenerate_storage_account_key")) :=
  ⟨rfl, rfl⟩

/-- C8, evaluation at the failing input: the per-item fetch inside
StorageAccountSample.get_storage_accounts passes its keywords to the list
operation get_storage_accounts, which does not accept
storage_account_name, so the fetch raises TypeError instead of fetching
the item; the same keywords would be accepted by the single-item operation
get_storage_account the surrounding comment describes.  The
get_sas_definitions listing, by contrast, does fetch each parsed
identifier individually and the fetched bundle carries the parsed name. -/
theorem get_storage_accounts_item_fetch_type_error :
    bind_kwargs kv_get_storage_accounts_params
        src_storage_accounts_item_fetch_kwargs =
      .error (.typeError "storage_account_name") ∧
    bind_kwargs kv_get_storage_account_params
        src_storage_accounts_item_fetch_kwargs = .ok () ∧
    ∀ st : SasDefServiceState, ∀ p ∈ src_get_sas_definitions st, ∀ b,
      p.2 = some b → b.name = p.1.sas_definition := by
  refine ⟨rfl, rfl, ?_⟩
  intro st p hp b hb
  simp only [src_get_sas_definitions, kv_list_sas_definitions,
    List.map_map, List.mem_map, Function.comp] at hp
  obtain ⟨d, hd, rfl⟩ := hp
  unfold kv_get_one_sas_definition at hb
  rw [if_pos rfl] at hb
  cases hfind : List.find? (fun d2 => d2.1 == d.1) st.defs with
  | none => rw [hfind] at hb; simp at hb
  | some d' =>
    rw [hfind] at hb
    have hb2 : ({ name := d'.1, template_uri := d'.2 } : SasDefGetBundle)
        = b := Option.some.inj hb
    have hpred := List.find?_some hfind
    rw [← hb2]
    show d'.1 = d.1
    exact beq_iff_eq.mp hpred

/-- Witness for C8 on a concrete one-definition store. -/
theorem get_storage_accounts_item_fetch_type_error_witness :
    ((({ vault := "v", account_name := "acct",
         sas_definition := "blobcontall" } : StorageSasDefinitionId),
       some ({ name := "blobcontall", template_uri := "uri" } :
         SasDefGetBundle)) ∈ src_get_sas_definitions test_sas_store) ∧
    ({ name := "blobcontall", template_uri := "uri" } :
        SasDefGetBundle).name = "blobcontall" :=
  ⟨by decide,
   get_storage_accounts_item_fetch_type_error.2.2 test_sas_store
     (({ vault := "v", account_name := "acct",
         sas_definition := "blobcontall" } : StorageSasDefinitionId),
      some ({ name := "blobcontall", template_uri := "uri" } :
        SasDefGetBundle)) (by decide)
     ({ name := "blobcontall", template_uri := "uri" } : SasDefGetBundle)
     rfl⟩

/-- C10: grant_access_to_sample_vault appends exactly one access-policy
entry carrying the full key, secret, certificate and storage permission
sets to the in-memory access-policy list of the vault before issuing the
persistence call, and the operation is not transactional: when the
create-or-update persistence call fails, the appended entry remains in the
in-memory list. -/
theorem grant_access_appends_full_policy (cfg : SampleConfig)
    (vault : Vault) (oid : String) (persist_ok : Bool) :
    (grant_access_to_sample_vault cfg vault oid
        persist_ok).1.properties.access_policies =
      vault.properties.access_policies ++
        [{ tenant_id := cfg.tenant_id, object_id := oid,
           permissions := full_permissions }] ∧
    (∀ k : KeyPermission, k ∈ full_permissions.keys) ∧
    (∀ s : SecretPermission, s ∈ full_permissions.secrets) ∧
    (∀ c : CertificatePermission, c ∈ full_permissions.certificates) ∧
    (∀ s : StoragePermission, s ∈ full_permissions.storage) ∧
    (grant_access_to_sample_vault cfg vault oid false).2 =
      .error (.sdkError "vaults.create_or_update failed") ∧
    (grant_access_to_sample_vault cfg vault oid
        false).1.properties.access_policies =
      vault.properties.access_policies ++
        [{ tenant_id := cfg.tenant_id, object_id := oid,
           permissions := full_permissions }] := by
  refine ⟨rfl, ?_, ?_, ?_, ?_, rfl, rfl⟩ <;> intro x <;> cases x <;> decide
